import Mathlib

/-!
# Verification of the CSV question-answering core

A shallow embedding of the code validator, sandboxed executor, result
formatter (src/executor.py) and the retry orchestration (src/pipeline.py)
of the Csv-QA repository, together with theorems settling the frozen
claims about them.

Python strings are modelled as Lean `String`s, operated on through their
underlying character lists so that every operation is a plain structural
recursion.  The Python parser (`ast.parse`) is outside the embedding: a
candidate code blob carries the statement list that parsing its
import-stripped text produces, `Option.none` standing for a parse failure.
-/

/-! ## Character-list string primitives (models of the Python `str` methods used) -/

/-- Model of Python `str.lower` (ASCII case folding, which is all the
deny-list needs). -/
def strLower (s : String) : String := String.mk (s.data.map Char.toLower)

/-- Model of Python `needle in hay` substring membership. -/
def containsSub (needle : List Char) (hay : List Char) : Bool :=
  match hay with
  | [] => needle.isEmpty
  | _ :: rest => needle.isPrefixOf hay || containsSub needle rest

/-- Whitespace recognised by the model of Python `str.strip`. -/
def isSpaceChar (c : Char) : Bool :=
  c = ' ' || c = '\t' || c = '\n' || c = '\r'

/-- Model of Python `str.strip()`. -/
def trimChars (cs : List Char) : List Char :=
  ((cs.dropWhile isSpaceChar).reverse.dropWhile isSpaceChar).reverse

/-- Model of Python `str.split(chr)` for a single-character separator. -/
def splitOnChar (sep : Char) : List Char → List (List Char)
  | [] => [[]]
  | c :: rest =>
    if c = sep then [] :: splitOnChar sep rest
    else
      match splitOnChar sep rest with
      | [] => [[c]]
      | l :: ls => (c :: l) :: ls

/-- Model of Python `sep.join(parts)`. -/
def joinWith (sep : String) : List String → String
  | [] => ""
  | [x] => x
  | x :: rest => x ++ sep ++ joinWith sep rest

/-! ## Deny-list validator and import stripping (executor.py lines 37-97) -/

/-- `BLOCKED_PATTERNS` from executor.py, verbatim and in source order. -/
def BLOCKED_PATTERNS : List String :=
  ["__import__", "exec(", "eval(", "open(", "os.", "sys.", "subprocess",
   "file(", "input(", "__builtins__", "__class__", "__bases__",
   "__subclasses__", "getattr", "setattr", "delattr", "globals", "locals",
   "compile"]

/-- `SAFE_IMPORTS` from executor.py line 60. -/
def SAFE_IMPORTS : List String :=
  ["datetime", "timedelta", "pd", "np", "pandas", "numpy"]

/-- One iteration of the `strip_imports` loop body: `true` when the line is
appended to `filtered_lines` (executor.py lines 69-77). -/
def keepLine (line : String) : Bool :=
  let stripped := trimChars line.data
  if "import ".data.isPrefixOf stripped || "from ".data.isPrefixOf stripped then
    !(SAFE_IMPORTS.any fun safe => containsSub safe.data stripped)
  else
    true

/-- The `strip_imports` filtering loop over the split lines. -/
def stripLoop : List String → List String
  | [] => []
  | line :: rest =>
    if keepLine line then line :: stripLoop rest else stripLoop rest

/-- `strip_imports` from executor.py lines 63-78: split on newlines, drop
import/from lines mentioning a safe import, join back. -/
def strip_imports (code : String) : String :=
  joinWith "\n" (stripLoop ((splitOnChar '\n' code.data).map String.mk))

/-- The `for pattern in BLOCKED_PATTERNS` scan of `validate_code`: first
pattern (in list order) whose lowercase form occurs in the lowercased code. -/
def findBlocked (codeLower : List Char) : List String → Option String
  | [] => Option.none
  | p :: rest =>
    if containsSub (strLower p).data codeLower then some p
    else findBlocked codeLower rest

/-- `validate_code` from executor.py lines 81-97.  The Python parser is not
part of the embedding, so the outcome of `ast.parse(code)` is passed in as
the boolean `parses`. -/
def validate_code (code : String) (parses : Bool) : Bool × Option String :=
  match findBlocked (strLower code).data BLOCKED_PATTERNS with
  | some p => (false, some ("Unsafe pattern detected: " ++ p))
  | Option.none =>
    if parses then (true, Option.none)
    else (false, some "Syntax error: invalid syntax")

example : strLower "AbC(" = "abc(" := by decide
example : containsSub "eval(".data (strLower "x = EVAL(1)").data = true := by decide
example : strip_imports "import updog" = "" := by decide
example : strip_imports "import os\nx = 1" = "import os\nx = 1" := by decide
example : strip_imports "import pandas as pd\nx = 1" = "x = 1" := by decide
example : (validate_code "os.system(1)" true).1 = false := by decide
example : validate_code "x = 1" true = (true, Option.none) := by decide

/-! ## Values (the Execution Result data model) -/

/-- Python exception class names that the modelled code can raise. -/
inductive ExcName
  | valueError
  | typeError
  | nameError
  | overflowError
  | syntaxError
  deriving DecidableEq

def ExcName.str : ExcName → String
  | .valueError => "ValueError"
  | .typeError => "TypeError"
  | .nameError => "NameError"
  | .overflowError => "OverflowError"
  | .syntaxError => "SyntaxError"

/-- A Python exception: class name plus message. -/
structure PyErr where
  name : ExcName
  msg : String
  deriving DecidableEq

/-- The executor's error rendering `f"{type(e).__name__}: {str(e)}"`
(executor.py line 168). -/
def PyErr.render (e : PyErr) : String := e.name.str ++ ": " ++ e.msg

/-- A Python float: finite floats are exact rationals, plus the three
non-finite values. -/
inductive PyFloat
  | finite (q : Rat)
  | inf
  | neginf
  | nan
  deriving DecidableEq

/-- A pandas DataFrame: column names and rows.  Cell values are carried as
their already-rendered text, which is all the formatter inspects. -/
structure DataFrame where
  cols : List String
  rows : List (List String)
  deriving DecidableEq

/-- A pandas Series (labeled sequence): index label / rendered value pairs. -/
structure Series where
  items : List (String × String)
  deriving DecidableEq

/-- A dynamically-typed Python value as produced by executing generated
code.  `Value.none` is Python `None`; `module` stands for the pre-provided
library handles (`pd`, `np`, `datetime`, `timedelta`). -/
inductive Value
  | none
  | bool (b : Bool)
  | int (n : Int)
  | float (f : PyFloat)
  | str (s : String)
  | list (vs : List Value)
  | tuple (vs : List Value)
  | frame (df : DataFrame)
  | series (sr : Series)
  | module (name : String)

/-- Python truthiness `bool(v)`.  pandas containers raise `ValueError`
rather than answer - the behaviour behind the `or` on executor.py line 147. -/
def truthy : Value → Except PyErr Bool
  | .none => .ok false
  | .bool b => .ok b
  | .int n => .ok (decide (n ≠ 0))
  | .float f =>
    match f with
    | .finite q => .ok (!(q.num == 0))
    | _ => .ok true
  | .str s => .ok (decide (s ≠ ""))
  | .list vs => .ok (!vs.isEmpty)
  | .tuple vs => .ok (!vs.isEmpty)
  | .frame _ => .error ⟨.valueError,
      "The truth value of a DataFrame is ambiguous. Use a.empty, a.bool(), a.item(), a.any() or a.all()."⟩
  | .series _ => .error ⟨.valueError,
      "The truth value of a Series is ambiguous. Use a.empty, a.bool(), a.item(), a.any() or a.all()."⟩
  | .module _ => .ok true

/-- Python `a or b`: truth-test the left operand, keep it if truthy. -/
def pyOr (a b : Value) : Except PyErr Value := do
  let t ← truthy a
  .ok (if t then a else b)

/-! ## The restricted execution scope and the statement language -/

/-- An execution scope (a Python dict used as globals or locals). -/
def Env : Type := String → Option Value

def emptyEnv : Env := fun _ => Option.none

def envInsert (e : Env) (x : String) (v : Value) : Env :=
  fun z => if z = x then some v else e z

/-- Python `dict.update`: bindings of `l` override those of `g`. -/
def envUpdate (g l : Env) : Env :=
  fun z =>
    match l z with
    | some v => some v
    | Option.none => g z

/-- Python `dict.get(x)` with its default of `None` (executor.py line 147). -/
def dget (e : Env) (x : String) : Value := (e x).getD Value.none

/-- Binary operators of the modelled expression fragment. -/
inductive BinOp
  | add
  | sub
  | mul
  deriving DecidableEq

/-- Expressions: the fragment of Python expressions the embedding gives a
semantics to (literals, name lookup, a few binary operators). -/
inductive Expr
  | const (v : Value)
  | var (x : String)
  | binop (op : BinOp) (a b : Expr)

/-- Assignment targets: a plain name (`ast.Name`) or a tuple-unpacking
target, the shapes `execute_code` distinguishes on line 145. -/
inductive Target
  | nameT (x : String)
  | tupleT (xs : List String)

/-- Statements: assignment (`ast.Assign`), a bare expression (`ast.Expr`),
and `pass` standing in for the remaining statement kinds that fall into the
executor's final `else` branch. -/
inductive Stmt
  | assign (targets : List Target) (e : Expr)
  | exprStmt (e : Expr)
  | passS

def applyBin (op : BinOp) (v w : Value) : Except PyErr Value :=
  match op, v, w with
  | .add, .int a, .int b => .ok (.int (a + b))
  | .sub, .int a, .int b => .ok (.int (a - b))
  | .mul, .int a, .int b => .ok (.int (a * b))
  | .add, .str a, .str b => .ok (.str (a ++ b))
  | .add, .list a, .list b => .ok (.list (a ++ b))
  | _, _, _ => .error ⟨.typeError, "unsupported operand type(s)"⟩

/-- Expression evaluation against globals `g` and locals `l` (Python
`eval(expr, g, l)` name resolution: locals first, then globals). -/
def evalExpr (g l : Env) : Expr → Except PyErr Value
  | .const v => .ok v
  | .var x =>
    match l x with
    | some v => .ok v
    | Option.none =>
      match g x with
      | some v => .ok v
      | Option.none => .error ⟨.nameError, "name \x27" ++ x ++ "\x27 is not defined"⟩
  | .binop op a b => do
    let va ← evalExpr g l a
    let vb ← evalExpr g l b
    applyBin op va vb

def bindNames (l : Env) : List String → List Value → Env
  | [], _ => l
  | _, [] => l
  | x :: xs, v :: vs => bindNames (envInsert l x v) xs vs

/-- Performing one assignment target (name binding or tuple unpacking). -/
def assignTarget (l : Env) (t : Target) (v : Value) : Except PyErr Env :=
  match t with
  | .nameT x => .ok (envInsert l x v)
  | .tupleT xs =>
    match v with
    | .list vs =>
      if vs.length = xs.length then .ok (bindNames l xs vs)
      else .error ⟨.valueError, "values to unpack do not match targets"⟩
    | .tuple vs =>
      if vs.length = xs.length then .ok (bindNames l xs vs)
      else .error ⟨.valueError, "values to unpack do not match targets"⟩
    | _ => .error ⟨.typeError, "cannot unpack non-iterable value"⟩

/-- Executing one statement at module level under `exec(code, g, l)`:
assignments bind into the locals dict, reads resolve locals first. -/
def execStmt (g l : Env) : Stmt → Except PyErr Env
  | .assign tgts e => do
    let v ← evalExpr g l e
    tgts.foldlM (fun acc t => assignTarget acc t v) l
  | .exprStmt e => do
    let _ ← evalExpr g l e
    .ok l
  | .passS => .ok l

/-- Executing a statement sequence, threading the locals dict. -/
def execStmts (g : Env) : Env → List Stmt → Except PyErr Env
  | l, [] => .ok l
  | l, s :: rest => do
    let l2 ← execStmt g l s
    execStmts g l2 rest

/-! ## execute_code (executor.py lines 100-168) -/

/-- Association-list lookup for the table store (dict of DataFrames). -/
def lookupStr : List (String × DataFrame) → String → Option DataFrame
  | [], _ => Option.none
  | (n, df) :: rest, z => if n = z then some df else lookupStr rest z

/-- The pre-provided library handles of `exec_globals` (executor.py lines
117-123).  The `__builtins__` entry is not modelled: its name is itself a
blocked pattern, so no validated code can reach it by name. -/
def baseGlobals : Env := fun z =>
  if z = "pd" then some (.module "pd")
  else if z = "np" then some (.module "np")
  else if z = "datetime" then some (.module "datetime")
  else if z = "timedelta" then some (.module "timedelta")
  else Option.none

/-- `exec_globals` after `exec_globals.update(dataframes)` (executor.py
line 126): every table bound by name over the base handles. -/
def mkExecGlobals (dataframes : List (String × DataFrame)) : Env := fun z =>
  match lookupStr dataframes z with
  | some df => some (.frame df)
  | Option.none => baseGlobals z

/-- A Candidate Code blob: the raw text, plus the statement list that
`ast.parse` yields on the import-stripped text (`Option.none` when parsing
raises `SyntaxError`).  The Python parser is external to the embedding, so
its result travels with the text. -/
structure PyCode where
  text : String
  parsed : Option (List Stmt)

/-- `execute_code` from executor.py lines 100-168: strip safe imports,
validate, then branch on the shape of the tail statement.  Returns the
`(result, error)` pair, with `Value.none` standing for Python `None`. -/
def execute_code (c : PyCode) (dataframes : List (String × DataFrame)) :
    Value × Option String :=
  let code := strip_imports c.text
  let verdict := validate_code code c.parsed.isSome
  if verdict.1 then
    match c.parsed with
    | Option.none => (Value.none, some (PyErr.render ⟨.syntaxError, "invalid syntax"⟩))
    | some stmts =>
      let g := mkExecGlobals dataframes
      match stmts.getLast? with
      | Option.none => (Value.none, some "Empty code")
      | some (Stmt.assign tgts _) =>
        match execStmts g emptyEnv stmts with
        | .error ex => (Value.none, some ex.render)
        | .ok locs =>
          let g2 := envUpdate g locs
          match tgts.head? with
          | some (Target.nameT x) =>
            match pyOr (dget locs x) (dget g2 x) with
            | .ok r => (r, Option.none)
            | .error ex => (Value.none, some ex.render)
          | _ => (Value.none, Option.none)
      | some (Stmt.exprStmt e) =>
        match execStmts g emptyEnv stmts.dropLast with
        | .error ex => (Value.none, some ex.render)
        | .ok locs =>
          let g2 := envUpdate g locs
          match evalExpr g2 locs e with
          | .ok r => (r, Option.none)
          | .error ex => (Value.none, some ex.render)
      | some _ =>
        match execStmts g emptyEnv stmts with
        | .error ex => (Value.none, some ex.render)
        | .ok _ => (Value.none, Option.none)
  else
    (Value.none, verdict.2)

/-- A one-row demonstration table (the German client of the spec scenario). -/
def demoDF : DataFrame := ⟨["client_name"], [["Acme GmbH"]]⟩

/-- A one-table store binding `clients_df`. -/
def demoStore : List (String × DataFrame) := [("clients_df", demoDF)]

example :
    execute_code ⟨"clients_df", some [Stmt.exprStmt (Expr.var "clients_df")]⟩ demoStore
      = (Value.frame demoDF, Option.none) := rfl

example :
    execute_code ⟨"x = clients_df",
        some [Stmt.assign [Target.nameT "x"] (Expr.var "clients_df")]⟩ demoStore
      = (Value.none, some "ValueError: The truth value of a DataFrame is ambiguous. Use a.empty, a.bool(), a.item(), a.any() or a.all().") := rfl

example :
    execute_code ⟨"x = 5", some [Stmt.assign [Target.nameT "x"] (Expr.const (Value.int 5))]⟩ []
      = (Value.int 5, Option.none) := rfl

example :
    execute_code ⟨"pass", some [Stmt.passS]⟩ [] = (Value.none, Option.none) := rfl

example :
    execute_code ⟨"os.system(1)", some [Stmt.passS]⟩ []
      = (Value.none, some "Unsafe pattern detected: os.") := rfl

/-! ## format_result (executor.py lines 171-202) -/

def dropTrailingZeros (cs : List Char) : List Char :=
  (cs.reverse.dropWhile (fun c => c = '0')).reverse

def padZeros (s : String) (k : Nat) : String :=
  String.mk (List.replicate (k - s.length) '0') ++ s

/-- Truncation of a rational toward zero (Python `int()` on floats). -/
def ratTrunc (q : Rat) : Int := q.num.tdiv (q.den : Int)

/-- Decimal rendering of a finite float (abstraction of Python `str` on
floats: exact integer part, fractional part to at most 12 places with
trailing zeros dropped). -/
def ratDecRepr (q : Rat) : String :=
  if q.den = 1 then toString q.num ++ ".0"
  else
    let sign := if q.num < 0 then "-" else ""
    let na := q.num.natAbs
    let frac := na * 1000000000000 / q.den % 1000000000000
    let fracStr := String.mk (dropTrailingZeros (padZeros (toString frac) 12).data)
    sign ++ toString (na / q.den) ++ "." ++ (if fracStr = "" then "0" else fracStr)

def floatRepr : PyFloat → String
  | .finite q => ratDecRepr q
  | .inf => "inf"
  | .neginf => "-inf"
  | .nan => "nan"

/-- Python `int(f)` on a float: truncation toward zero; raises on the
non-finite values exactly as CPython does. -/
def pyIntOfFloat : PyFloat → Except PyErr Int
  | .finite q => .ok (ratTrunc q)
  | .inf => .error ⟨.overflowError, "cannot convert float infinity to integer"⟩
  | .neginf => .error ⟨.overflowError, "cannot convert float infinity to integer"⟩
  | .nan => .error ⟨.valueError, "cannot convert float NaN to integer"⟩

/-- Python `f == n` between a float and an integer (a normalized rational
equals an integer exactly when its denominator is one and numerators agree). -/
def pyFloatEqInt (f : PyFloat) (n : Int) : Bool :=
  match f with
  | .finite q => q.den == 1 && q.num == n
  | _ => false

/-- Python `f"{f:.2f}"`: two decimal places. -/
def pyFmt2 : PyFloat → String
  | .finite q =>
    let c : Int := (200 * q.num + (q.den : Int)).fdiv (2 * (q.den : Int))
    let sign := if c < 0 then "-" else ""
    let a := c.natAbs
    sign ++ toString (a / 100) ++ "." ++ (if a % 100 < 10 then "0" else "") ++ toString (a % 100)
  | .inf => "inf"
  | .neginf => "-inf"
  | .nan => "nan"

/-- One text line per row: the abstraction of pandas cell alignment. -/
def renderRow (cells : List String) : String := joinWith " " cells

/-- Abstraction of `DataFrame.to_string` without the synthetic row index:
a column-header line followed by one line per row. -/
def dfToString (df : DataFrame) : String :=
  joinWith "\n" (renderRow df.cols :: df.rows.map renderRow)

/-- Abstraction of `Series.to_string`: one label/value line per item. -/
def seriesToString (sr : Series) : String :=
  joinWith "\n" (sr.items.map fun p => p.1 ++ " " ++ p.2)

/-- `DataFrame.head`. -/
def DataFrame.head (df : DataFrame) (n : Nat) : DataFrame :=
  ⟨df.cols, df.rows.take n⟩

/-- `Series.head`. -/
def Series.head (sr : Series) (n : Nat) : Series :=
  ⟨sr.items.take n⟩

mutual

/-- Python `repr` on the modelled values (used by `str` on containers). -/
def pyRepr : Value → String
  | .none => "None"
  | .bool true => "True"
  | .bool false => "False"
  | .int n => toString n
  | .float f => floatRepr f
  | .str s => "\x27" ++ s ++ "\x27"
  | .list vs => "[" ++ pyReprJoin vs ++ "]"
  | .tuple vs => "(" ++ pyReprJoin vs ++ (if vs.length = 1 then ",)" else ")")
  | .frame df => dfToString df
  | .series sr => seriesToString sr
  | .module n => "<module " ++ n ++ ">"

/-- Comma-separated `repr`s of the elements of a container. -/
def pyReprJoin : List Value → String
  | [] => ""
  | [v] => pyRepr v
  | v :: rest => pyRepr v ++ ", " ++ pyReprJoin rest

end

/-- Python `str(v)` (executor.py lines 194 and 202). -/
def pyStr (v : Value) : String :=
  match v with
  | .str s => s
  | _ => pyRepr v

/-- `True` when the value is a DataFrame or a Series - the
`isinstance(result[0], (pd.DataFrame, pd.Series))` test of line 192. -/
def isFrameish : Value → Bool
  | .frame _ => true
  | .series _ => true
  | _ => false

mutual

/-- `format_result` from executor.py lines 171-202.  The result is an
`Except` because the float branch can raise (`int(result)` on a non-finite
float); every other branch returns text. -/
def format_result (result : Value) (max_rows : Nat) : Except PyErr String :=
  match result with
  | .none => .ok "No result"
  | .frame df =>
    if df.rows.length > max_rows then
      .ok ("DataFrame with " ++ toString df.rows.length ++ " rows (showing first "
            ++ toString max_rows ++ "):\n" ++ dfToString (df.head max_rows))
    else
      .ok ("DataFrame with " ++ toString df.rows.length ++ " rows:\n" ++ dfToString df)
  | .series sr =>
    if sr.items.length > max_rows then
      .ok ("Series with " ++ toString sr.items.length ++ " items (showing first "
            ++ toString max_rows ++ "):\n" ++ seriesToString (sr.head max_rows))
    else
      .ok ("Series with " ++ toString sr.items.length ++ " items:\n" ++ seriesToString sr)
  | .list vs =>
    match vs.head? with
    | some v0 =>
      if isFrameish v0 then do
        let parts ← formatEach vs max_rows
        .ok (joinWith "\n\n" parts)
      else .ok (pyStr (Value.list vs))
    | Option.none => .ok (pyStr (Value.list vs))
  | .tuple vs =>
    match vs.head? with
    | some v0 =>
      if isFrameish v0 then do
        let parts ← formatEach vs max_rows
        .ok (joinWith "\n\n" parts)
      else .ok (pyStr (Value.tuple vs))
    | Option.none => .ok (pyStr (Value.tuple vs))
  | .float f => do
    let n ← pyIntOfFloat f
    if pyFloatEqInt f n then pure (toString n) else pure (pyFmt2 f)
  | v => .ok (pyStr v)

/-- The generator expression `format_result(r, max_rows) for r in result`
of executor.py line 193. -/
def formatEach (vs : List Value) (max_rows : Nat) : Except PyErr (List String) :=
  match vs with
  | [] => .ok []
  | v :: rest => do
    let s ← format_result v max_rows
    let ss ← formatEach rest max_rows
    .ok (s :: ss)

end

example : format_result (Value.float (PyFloat.finite 1000)) 20 = .ok "1000" := rfl
example : format_result (Value.float (PyFloat.finite (mkRat 2001 2))) 20 = .ok "1000.50" := rfl
example : format_result Value.none 20 = .ok "No result" := rfl
example :
    format_result (Value.frame ⟨["a"], [["1"], ["2"], ["3"]]⟩) 2
      = .ok "DataFrame with 3 rows (showing first 2):\na\n1\n2" := rfl
example :
    format_result (Value.frame demoDF) 20
      = .ok "DataFrame with 1 rows:\nclient_name\nAcme GmbH" := rfl
example :
    format_result (Value.float PyFloat.nan) 20
      = .error ⟨ExcName.valueError, "cannot convert float NaN to integer"⟩ := rfl

/-! ## Retry orchestration (pipeline.py lines 61-165) -/

/-- The Per-question result record (the `PipelineResult` dataclass,
pipeline.py lines 14-25).  The two prompt strings are built by external
collaborators and are not modelled. -/
structure PipelineResult where
  question : String
  answer : String
  generated_code : Option PyCode := Option.none
  raw_result : Value := Value.none
  formatted_result : Option String := Option.none
  success : Bool := true
  error : Option String := Option.none

/-- The external language-model boundary: outcomes of the four calls the
orchestrator makes.  `Except.error` is the call raising. -/
structure Oracle where
  genCode : Except String PyCode
  fixCode : PyCode → String → Except String PyCode
  errResponse : String → Except String String
  synthAnswer : String → Except String String

/-- The `for attempt in range(max_retries + 1)` loop of `RAGPipeline.ask`
(pipeline.py lines 94-115), with `remaining` the retries still allowed.
Returns the final candidate code, the last execution result and error, and
- as instrumentation for the attempt-count claims - the number of
`execute_code` calls made. -/
def execLoop (dfs : List (String × DataFrame)) (fix : PyCode → String → Except String PyCode) :
    Nat → PyCode → PyCode × Value × Option String × Nat
  | remaining, code =>
    match execute_code code dfs with
    | (r, Option.none) => (code, r, Option.none, 1)
    | (r, some err) =>
      match remaining with
      | 0 => (code, r, some err, 1)
      | rem + 1 =>
        match fix code err with
        | .error m => (code, r, some ("Code fix failed: " ++ m), 1)
        | .ok c2 =>
          let t := execLoop dfs fix rem c2
          (t.1, t.2.1, t.2.2.1, t.2.2.2 + 1)

/-- `RAGPipeline.ask` (pipeline.py lines 61-165): generate, execute with
retries, then format and synthesize.  The returned `Nat` counts the
`execute_code` calls.  A formatter exception propagates (the source does
not catch it), hence the `Except`. -/
def ask (dfs : List (String × DataFrame)) (oracle : Oracle) (max_retries : Nat)
    (question : String) : Except PyErr (PipelineResult × Nat) :=
  match oracle.genCode with
  | .error e =>
    .ok ({ question := question,
           answer := "Sorry, I couldn\x27t generate code. Error: " ++ e,
           success := false,
           error := some ("Code generation failed: " ++ e) }, 0)
  | .ok code0 =>
    let t := execLoop dfs oracle.fixCode max_retries code0
    match t.2.2.1 with
    | some e =>
      let answer :=
        match oracle.errResponse e with
        | .ok a => a
        | .error _ => "Sorry, I couldn\x27t answer your question: " ++ e
      .ok ({ question := question, answer := answer,
             generated_code := some t.1, success := false,
             error := some e }, t.2.2.2)
    | Option.none =>
      match format_result t.2.1 20 with
      | .error ex => .error ex
      | .ok formatted =>
        let answer :=
          match oracle.synthAnswer formatted with
          | .ok a => a
          | .error _ => "Here are the results:\n\n" ++ formatted
        .ok ({ question := question, answer := answer,
               generated_code := some t.1, raw_result := t.2.1,
               formatted_result := some formatted, success := true }, t.2.2.2)

/-! ## Shared lemmas -/

lemma append_ne_empty_left {s : String} (t : String) (h : s.data ≠ []) :
    s ++ t ≠ "" := by
  intro he
  have hd := congrArg String.data he
  rw [String.data_append] at hd
  exact h (List.append_eq_nil.mp hd).1

lemma PyErr.render_ne_empty (e : PyErr) : e.render ≠ "" := by
  have h : (e.name.str ++ ": ").data ≠ [] := by
    cases e.name <;> decide
  exact append_ne_empty_left e.msg h

lemma validate_code_false (code : String) (b : Bool)
    (h : (validate_code code b).1 = false) :
    ∃ e, (validate_code code b).2 = some e ∧ e ≠ "" := by
  unfold validate_code at *
  cases hf : findBlocked (strLower code).data BLOCKED_PATTERNS with
  | some p =>
    refine ⟨"Unsafe pattern detected: " ++ p, by simp [hf], ?_⟩
    exact append_ne_empty_left p (by decide)
  | none =>
    cases b with
    | true => simp [hf] at h
    | false => exact ⟨"Syntax error: invalid syntax", rfl, by decide⟩

lemma findBlocked_mem_of_match (cl : List Char) (ps : List String) (p : String)
    (hp : p ∈ ps) (hm : containsSub (strLower p).data cl = true) :
    ∃ q, q ∈ ps ∧ containsSub (strLower q).data cl = true ∧
      findBlocked cl ps = some q := by
  induction ps with
  | nil => cases hp
  | cons a rest ih =>
    by_cases ha : containsSub (strLower a).data cl = true
    · exact ⟨a, List.mem_cons_self a rest, ha, by simp [findBlocked, ha]⟩
    · have hp' : p ∈ rest := by
        rcases List.mem_cons.mp hp with h | h
        · subst h; exact absurd hm ha
        · exact h
      obtain ⟨q, hq1, hq2, hq3⟩ := ih hp'
      exact ⟨q, List.mem_cons_of_mem a hq1, hq2, by simp [findBlocked, ha, hq3]⟩

/-! ## Claim C3 -/

/-- C3: for every code text containing a deny-listed token in any character
casing, `validate_code` rejects, with a reason naming a blocked pattern that
occurs (case-insensitively) in the code - whatever the parse outcome of the
surrounding text. -/
theorem blocked_pattern_always_rejects (code : String) (parses : Bool) (p : String)
    (hp : p ∈ BLOCKED_PATTERNS)
    (hm : containsSub (strLower p).data (strLower code).data = true) :
    (validate_code code parses).1 = false ∧
      ∃ q, q ∈ BLOCKED_PATTERNS ∧
        containsSub (strLower q).data (strLower code).data = true ∧
        (validate_code code parses).2 = some ("Unsafe pattern detected: " ++ q) := by
  obtain ⟨q, hq1, hq2, hq3⟩ :=
    findBlocked_mem_of_match (strLower code).data BLOCKED_PATTERNS p hp hm
  unfold validate_code
  rw [hq3]
  exact ⟨rfl, q, hq1, hq2, rfl⟩

/-- C3 witness: `x = EVAL(1)` contains the blocked token `eval(` in upper
case and is rejected whether or not it parses. -/
theorem blocked_pattern_always_rejects_witness :
    ("eval(" ∈ BLOCKED_PATTERNS ∧
        containsSub (strLower "eval(").data (strLower "x = EVAL(1)").data = true) ∧
      ((validate_code "x = EVAL(1)" true).1 = false ∧
        ∃ q, q ∈ BLOCKED_PATTERNS ∧
          containsSub (strLower q).data (strLower "x = EVAL(1)").data = true ∧
          (validate_code "x = EVAL(1)" true).2 = some ("Unsafe pattern detected: " ++ q)) :=
  ⟨⟨by decide, by decide⟩,
    blocked_pattern_always_rejects "x = EVAL(1)" true "eval(" (by decide) (by decide)⟩

/-! ## Claim C6 -/

/-- C6: whenever the validator rejects the import-stripped text, the
executor returns no value paired with exactly the validator's reason (which
is present), for every parse outcome and every table store - the statement
list is never consulted, so nothing is executed. -/
theorem rejected_code_returns_reason (text : String) (parsed : Option (List Stmt))
    (dfs : List (String × DataFrame))
    (h : (validate_code (strip_imports text) parsed.isSome).1 = false) :
    execute_code ⟨text, parsed⟩ dfs
        = (Value.none, (validate_code (strip_imports text) parsed.isSome).2) ∧
      (validate_code (strip_imports text) parsed.isSome).2.isSome = true := by
  constructor
  · unfold execute_code
    simp [h]
  · obtain ⟨e, he, _⟩ := validate_code_false _ _ h
    simp [he]

/-- C6 witness: the spec scenario `os.system("ls")` is rejected for the
blocked token `os.` and the executor hands back that reason unexecuted. -/
theorem rejected_code_returns_reason_witness :
    (validate_code (strip_imports "os.system(\"ls\")") (Option.none : Option (List Stmt)).isSome).1 = false ∧
      (execute_code ⟨"os.system(\"ls\")", Option.none⟩ []
          = (Value.none, (validate_code (strip_imports "os.system(\"ls\")")
              (Option.none : Option (List Stmt)).isSome).2) ∧
        (validate_code (strip_imports "os.system(\"ls\")")
            (Option.none : Option (List Stmt)).isSome).2.isSome = true) :=
  ⟨by decide, rejected_code_returns_reason "os.system(\"ls\")" Option.none [] (by decide)⟩

/-! ## Claim C7 -/

/-- The raw-substring test `strip_imports` actually applies to an
import/from line: some pre-provided name occurs anywhere in the stripped
line text. -/
def importDropped (line : String) : Bool :=
  let stripped := trimChars line.data
  ("import ".data.isPrefixOf stripped || "from ".data.isPrefixOf stripped)
    && SAFE_IMPORTS.any fun safe => containsSub safe.data stripped

lemma keepLine_eq_not_importDropped (line : String) :
    keepLine line = !importDropped line := by
  unfold keepLine importDropped
  by_cases h : ("import ".data.isPrefixOf (trimChars line.data)
      || "from ".data.isPrefixOf (trimChars line.data)) = true
  · simp [h]
  · simp only [Bool.not_eq_true] at h
    simp [h]

lemma stripLoop_eq_filter (ls : List String) : stripLoop ls = ls.filter keepLine := by
  induction ls with
  | nil => rfl
  | cons line rest ih =>
    by_cases h : keepLine line = true
    · simp [stripLoop, h, List.filter, ih]
    · simp at h
      simp [stripLoop, h, List.filter, ih]

/-- C7 counterexample: `import updog` imports no pre-provided module
(`updog` names none of them), yet the line is removed because `updog`
contains `pd` as a raw substring - `strip_imports` does not leave every
other-module import unchanged. -/
theorem strip_imports_overmatch :
    strip_imports "import updog" = "" ∧ ("updog" ∈ SAFE_IMPORTS → False) ∧
      strip_imports "import updog" ≠ "import updog" :=
  ⟨by decide, by decide, by decide⟩

/-- C7 (amended): `strip_imports` removes exactly the lines that, after
stripping surrounding whitespace, start with `import ` or `from ` and
contain one of the pre-provided names (`datetime`, `timedelta`, `pd`, `np`,
`pandas`, `numpy`) as a raw substring anywhere in the line - which also
removes imports of unrelated modules whose text happens to contain such a
name; every other line is kept verbatim and in order. -/
theorem strip_imports_characterization (code : String) :
    strip_imports code =
      joinWith "\n" (((splitOnChar '\n' code.data).map String.mk).filter
        fun line => !importDropped line) := by
  unfold strip_imports
  rw [stripLoop_eq_filter]
  congr 1
  apply List.filter_congr
  intro line _
  rw [keepLine_eq_not_importDropped]

/-! ## Claim C1 -/

/-- C1: the two tail shapes disagree at the concrete store binding
`clients_df`.  The assignment-tail code `x = clients_df` trips the
truth-value test hidden in the `or` fallback of executor.py line 147
(`exec_locals.get(var_name) or exec_globals.get(var_name)`), so the
executor reports pandas' `ValueError` instead of the assigned table, while
the expression-tail code `clients_df` returns the table. -/
theorem assign_tail_dataframe_diverges :
    execute_code ⟨"x = clients_df",
        some [Stmt.assign [Target.nameT "x"] (Expr.var "clients_df")]⟩ demoStore
      = (Value.none, some "ValueError: The truth value of a DataFrame is ambiguous. Use a.empty, a.bool(), a.item(), a.any() or a.all().") ∧
    execute_code ⟨"clients_df", some [Stmt.exprStmt (Expr.var "clients_df")]⟩ demoStore
      = (Value.frame demoDF, Option.none) ∧
    Value.frame demoDF ≠ Value.none :=
  ⟨rfl, rfl, fun h => Value.noConfusion h⟩

/-! ## Claim C2 -/

lemma execute_code_error_shape (c : PyCode) (dfs : List (String × DataFrame)) :
    (execute_code c dfs).2 = Option.none ∨
      ((execute_code c dfs).1 = Value.none ∧
        ∃ e, (execute_code c dfs).2 = some e ∧ e ≠ "") := by
  obtain ⟨text, parsed⟩ := c
  by_cases h1 : (validate_code (strip_imports text) parsed.isSome).1 = true
  case neg =>
    have h1' : (validate_code (strip_imports text) parsed.isSome).1 = false := by
      simpa using h1
    obtain ⟨e, he, hne⟩ := validate_code_false _ _ h1'
    right
    refine ⟨?_, e, ?_, hne⟩ <;> simp [execute_code, h1', he]
  case pos =>
    cases parsed with
    | none =>
      replace h1 : (validate_code (strip_imports text) false).1 = true := by simpa using h1
      right
      refine ⟨?_, PyErr.render ⟨.syntaxError, "invalid syntax"⟩, ?_,
        PyErr.render_ne_empty _⟩ <;> simp [execute_code, h1]
    | some stmts =>
      replace h1 : (validate_code (strip_imports text) true).1 = true := by simpa using h1
      cases hl : stmts.getLast? with
      | none =>
        right
        refine ⟨?_, "Empty code", ?_, by decide⟩ <;> simp [execute_code, h1, hl]
      | some last =>
        cases last with
        | assign tgts e0 =>
          cases hex : execStmts (mkExecGlobals dfs) emptyEnv stmts with
          | error ex =>
            right
            refine ⟨?_, ex.render, ?_, PyErr.render_ne_empty ex⟩ <;>
              simp [execute_code, h1, hl, hex]
          | ok locs =>
            cases hh : tgts.head? with
            | none => left; simp [execute_code, h1, hl, hex, hh]
            | some t0 =>
              cases t0 with
              | nameT x =>
                cases hor : pyOr (dget locs x)
                    (dget (envUpdate (mkExecGlobals dfs) locs) x) with
                | ok r => left; simp [execute_code, h1, hl, hex, hh, hor]
                | error ex =>
                  right
                  refine ⟨?_, ex.render, ?_, PyErr.render_ne_empty ex⟩ <;>
                    simp [execute_code, h1, hl, hex, hh, hor]
              | tupleT xs => left; simp [execute_code, h1, hl, hex, hh]
        | exprStmt e0 =>
          cases hex : execStmts (mkExecGlobals dfs) emptyEnv stmts.dropLast with
          | error ex =>
            right
            refine ⟨?_, ex.render, ?_, PyErr.render_ne_empty ex⟩ <;>
              simp [execute_code, h1, hl, hex]
          | ok locs =>
            cases hev : evalExpr (envUpdate (mkExecGlobals dfs) locs) locs e0 with
            | ok r => left; simp [execute_code, h1, hl, hex, hev]
            | error ex =>
              right
              refine ⟨?_, ex.render, ?_, PyErr.render_ne_empty ex⟩ <;>
                simp [execute_code, h1, hl, hex, hev]
        | passS =>
          cases hex : execStmts (mkExecGlobals dfs) emptyEnv stmts with
          | error ex =>
            right
            refine ⟨?_, ex.render, ?_, PyErr.render_ne_empty ex⟩ <;>
              simp [execute_code, h1, hl, hex]
          | ok locs => left; simp [execute_code, h1, hl, hex]

/-- C2 counterexample: the validated, successfully executed code `pass`
yields neither a value nor an error - both components of the executor's
pair are none, so the pair does not have exactly one non-none component. -/
theorem pass_tail_yields_both_none :
    execute_code ⟨"pass", some [Stmt.passS]⟩ [] = (Value.none, Option.none) ∧
      ¬((execute_code ⟨"pass", some [Stmt.passS]⟩ []).1 ≠ Value.none ∨
        (execute_code ⟨"pass", some [Stmt.passS]⟩ []).2 ≠ Option.none) := by
  refine ⟨rfl, ?_⟩
  intro h
  rcases h with h | h
  · exact h rfl
  · exact h rfl

/-- C2 (amended): an error outcome never carries a value - whenever
`execute_code` reports an error, the value component is none (but both
components can be none together, e.g. for a control-flow tail statement). -/
theorem error_outcome_carries_no_value (c : PyCode) (dfs : List (String × DataFrame))
    (h : (execute_code c dfs).2.isSome = true) :
    (execute_code c dfs).1 = Value.none := by
  rcases execute_code_error_shape c dfs with h2 | ⟨h1, _⟩
  · rw [h2] at h
    cases h
  · exact h1

/-- C2 witness: blocked code errors and indeed carries no value. -/
theorem error_outcome_carries_no_value_witness :
    (execute_code ⟨"os.", Option.none⟩ []).2.isSome = true ∧
      (execute_code ⟨"os.", Option.none⟩ []).1 = Value.none :=
  ⟨by decide, error_outcome_carries_no_value ⟨"os.", Option.none⟩ [] (by decide)⟩

/-! ## Claim C10 -/

/-- C10: when validated code executes without raising and its tail
statement is an assignment whose first target is not a plain name (here:
tuple unpacking), the executor runs the whole statement sequence and
returns no value and no error. -/
theorem non_name_target_returns_none_none (text : String) (ss : List Stmt)
    (xs : List String) (rest : List Target) (e : Expr)
    (dfs : List (String × DataFrame)) (locs : Env)
    (hval : (validate_code (strip_imports text) true).1 = true)
    (hexec : execStmts (mkExecGlobals dfs) emptyEnv
        (ss ++ [Stmt.assign (Target.tupleT xs :: rest) e]) = .ok locs) :
    execute_code ⟨text, some (ss ++ [Stmt.assign (Target.tupleT xs :: rest) e])⟩ dfs
      = (Value.none, Option.none) := by
  unfold execute_code
  simp [hval, List.getLast?_concat, hexec]

/-- C10 witness: `a, b = (1, 2)` executes fully and returns `(None, None)`. -/
theorem non_name_target_returns_none_none_witness :
    ((validate_code (strip_imports "a, b = (1, 2)") true).1 = true ∧
        execStmts (mkExecGlobals []) emptyEnv
          ([] ++ [Stmt.assign [Target.tupleT ["a", "b"]]
            (Expr.const (Value.tuple [Value.int 1, Value.int 2]))])
          = .ok (envInsert (envInsert emptyEnv "a" (Value.int 1)) "b" (Value.int 2))) ∧
      execute_code ⟨"a, b = (1, 2)",
          some ([] ++ [Stmt.assign [Target.tupleT ["a", "b"]]
            (Expr.const (Value.tuple [Value.int 1, Value.int 2]))])⟩ []
        = (Value.none, Option.none) :=
  ⟨⟨by decide, rfl⟩,
    non_name_target_returns_none_none "a, b = (1, 2)" [] ["a", "b"] []
      (Expr.const (Value.tuple [Value.int 1, Value.int 2])) []
      (envInsert (envInsert emptyEnv "a" (Value.int 1)) "b" (Value.int 2))
      (by decide) rfl⟩

/-! ## Claim C4 -/

/-- `True` for the finite floats, on which `int()` does not raise. -/
def finiteFloat : PyFloat → Bool
  | .finite _ => true
  | _ => false

mutual

/-- The values on whose formatting the float branch's `int(result)` cannot
be reached with a non-finite float: non-finite floats are excluded at the
top level and, recursively, inside container results whose first element is
a table or labeled sequence (the only containers the formatter recurses
into). -/
def formatSafe : Value → Bool
  | .float f => finiteFloat f
  | .list vs =>
    match vs.head? with
    | some v0 => if isFrameish v0 then formatSafeAll vs else true
    | Option.none => true
  | .tuple vs =>
    match vs.head? with
    | some v0 => if isFrameish v0 then formatSafeAll vs else true
    | Option.none => true
  | _ => true

def formatSafeAll : List Value → Bool
  | [] => true
  | v :: rest => formatSafe v && formatSafeAll rest

end

lemma formatSafeAll_mem {vs : List Value} (h : formatSafeAll vs = true) :
    ∀ v ∈ vs, formatSafe v = true := by
  induction vs with
  | nil => intro v hv; cases hv
  | cons a rest ih =>
    rw [formatSafeAll, Bool.and_eq_true] at h
    intro v hv
    rcases List.mem_cons.mp hv with rfl | hv
    · exact h.1
    · exact ih h.2 v hv

lemma formatEach_isOk {vs : List Value} {mr : Nat}
    (h : ∀ v ∈ vs, (format_result v mr).isOk = true) :
    (formatEach vs mr).isOk = true := by
  induction vs with
  | nil => rfl
  | cons a rest ih =>
    have ha := h a (List.mem_cons_self a rest)
    obtain ⟨s, hs⟩ : ∃ s, format_result a mr = .ok s := by
      cases hfa : format_result a mr with
      | ok s => exact ⟨s, rfl⟩
      | error ex => rw [hfa] at ha; cases ha
    have hrest := ih fun v hv => h v (List.mem_cons_of_mem a hv)
    obtain ⟨ss, hss⟩ : ∃ ss, formatEach rest mr = .ok ss := by
      cases hfr : formatEach rest mr with
      | ok ss => exact ⟨ss, rfl⟩
      | error ex => rw [hfr] at hrest; cases hrest
    rw [formatEach, hs, hss]
    rfl

lemma format_total_aux : ∀ (n : Nat) (v : Value), sizeOf v ≤ n →
    ∀ (mr : Nat), formatSafe v = true → (format_result v mr).isOk = true := by
  intro n
  induction n with
  | zero =>
    intro v hv
    cases v <;> simp_all
  | succ n ih =>
    intro v hv mr hsafe
    cases v with
    | none => rfl
    | bool b => rfl
    | int m => rfl
    | str s => rfl
    | module m => rfl
    | frame df =>
      rw [format_result]
      split <;> rfl
    | series sr =>
      rw [format_result]
      split <;> rfl
    | float f =>
      cases f with
      | finite q =>
        have hstep : format_result (Value.float (PyFloat.finite q)) mr
            = (if pyFloatEqInt (PyFloat.finite q) (ratTrunc q) then
                pure (toString (ratTrunc q))
              else pure (pyFmt2 (PyFloat.finite q))) := rfl
        rw [hstep]
        split <;> rfl
      | inf => exact absurd hsafe (by decide)
      | neginf => exact absurd hsafe (by decide)
      | nan => exact absurd hsafe (by decide)
    | list vs =>
      cases hh : vs.head? with
      | none =>
        simp only [format_result, hh]
        rfl
      | some v0 =>
        by_cases hfr : isFrameish v0 = true
        · simp only [formatSafe, hh, if_pos hfr] at hsafe
          have hmem : ∀ v ∈ vs, (format_result v mr).isOk = true := by
            intro v hv2
            apply ih v ?_ mr (formatSafeAll_mem hsafe v hv2)
            have h1 := List.sizeOf_lt_of_mem hv2
            have h2 : sizeOf (Value.list vs) = 1 + sizeOf vs := by
              simp [Value.list.sizeOf_spec]
            omega
          obtain ⟨parts, hp⟩ : ∃ parts, formatEach vs mr = .ok parts := by
            have hok := formatEach_isOk hmem
            cases hfe : formatEach vs mr with
            | ok parts => exact ⟨parts, rfl⟩
            | error ex => rw [hfe] at hok; cases hok
          simp only [format_result, hh, if_pos hfr, hp]
          rfl
        · replace hfr : isFrameish v0 = false := by simpa using hfr
          simp only [format_result, hh, hfr]
          rfl
    | tuple vs =>
      cases hh : vs.head? with
      | none =>
        simp only [format_result, hh]
        rfl
      | some v0 =>
        by_cases hfr : isFrameish v0 = true
        · simp only [formatSafe, hh, if_pos hfr] at hsafe
          have hmem : ∀ v ∈ vs, (format_result v mr).isOk = true := by
            intro v hv2
            apply ih v ?_ mr (formatSafeAll_mem hsafe v hv2)
            have h1 := List.sizeOf_lt_of_mem hv2
            have h2 : sizeOf (Value.tuple vs) = 1 + sizeOf vs := by
              simp [Value.tuple.sizeOf_spec]
            omega
          obtain ⟨parts, hp⟩ : ∃ parts, formatEach vs mr = .ok parts := by
            have hok := formatEach_isOk hmem
            cases hfe : formatEach vs mr with
            | ok parts => exact ⟨parts, rfl⟩
            | error ex => rw [hfe] at hok; cases hok
          simp only [format_result, hh, if_pos hfr, hp]
          rfl
        · replace hfr : isFrameish v0 = false := by simpa using hfr
          simp only [format_result, hh, hfr]
          rfl

/-- C4 counterexample: `format_result` does raise on a floating-point
scalar: on `nan`, the float branch's `int(result)` raises `ValueError`
before any rendering happens, so the function is not total over every
floating-point scalar. -/
theorem format_nan_raises :
    format_result (Value.float PyFloat.nan) 20
      = Except.error ⟨ExcName.valueError, "cannot convert float NaN to integer"⟩ ∧
    format_result (Value.float PyFloat.inf) 20
      = Except.error ⟨ExcName.overflowError, "cannot convert float infinity to integer"⟩ :=
  ⟨rfl, rfl⟩

/-- C4 (amended): `format_result` is total - returning a text string, with
unknown variants falling through to the generic rendering - on every
execution-result value except those carrying a non-finite floating scalar
where the formatter recurses (at the top level, or inside a
table-led container): there `int(result)` raises. -/
theorem format_total_on_finite (v : Value) (mr : Nat)
    (h : formatSafe v = true) : (format_result v mr).isOk = true :=
  format_total_aux (sizeOf v) v (Nat.le_refl _) mr h

/-- C4 witness: a finite float formats fine. -/
theorem format_total_on_finite_witness :
    formatSafe (Value.float (PyFloat.finite 0)) = true ∧
      (format_result (Value.float (PyFloat.finite 0)) 20).isOk = true :=
  ⟨by decide, format_total_on_finite (Value.float (PyFloat.finite 0)) 20 (by decide)⟩

/-! ## Claim C5 -/

lemma containsSub_true_iff (nd hay : List Char) :
    containsSub nd hay = true ↔ nd <:+: hay := by
  induction hay with
  | nil =>
    rw [containsSub]
    simp [List.isEmpty_iff, List.infix_nil]
  | cons c rest ih =>
    rw [containsSub, Bool.or_eq_true, List.isPrefixOf_iff_prefix, ih,
      List.infix_cons_iff]

lemma mem_of_containsSub {nd hay : List Char} (h : containsSub nd hay = true)
    {c : Char} (hc : c ∈ nd) : c ∈ hay :=
  ((containsSub_true_iff nd hay).mp h).subset hc

lemma toDigitsCore_mem_digits : ∀ (fuel n : Nat) (acc : List Char),
    (∀ c ∈ acc, c ∈ ['0', '1', '2', '3', '4', '5', '6', '7', '8', '9']) →
    ∀ c ∈ Nat.toDigitsCore 10 fuel n acc,
      c ∈ ['0', '1', '2', '3', '4', '5', '6', '7', '8', '9'] := by
  intro fuel
  induction fuel with
  | zero =>
    intro n acc hacc
    simpa [Nat.toDigitsCore] using hacc
  | succ fuel ih =>
    intro n acc hacc
    have hd : Nat.digitChar (n % 10) ∈ ['0', '1', '2', '3', '4', '5', '6', '7', '8', '9'] := by
      set m := n % 10 with hm
      have h10 : m < 10 := Nat.mod_lt _ (by omega)
      interval_cases m <;> decide
    have hacc2 : ∀ c ∈ Nat.digitChar (n % 10) :: acc,
        c ∈ ['0', '1', '2', '3', '4', '5', '6', '7', '8', '9'] := by
      intro c hc
      rcases List.mem_cons.mp hc with rfl | hc
      · exact hd
      · exact hacc c hc
    simp only [Nat.toDigitsCore]
    split
    · exact hacc2
    · exact ih (n / 10) _ hacc2

lemma repr_data_digits (n : Nat) :
    ∀ c ∈ (Nat.repr n).data, c ∈ ['0', '1', '2', '3', '4', '5', '6', '7', '8', '9'] := by
  intro c hc
  have h0 : (Nat.repr n).data = Nat.toDigits 10 n := rfl
  rw [h0, Nat.toDigits] at hc
  exact toDigitsCore_mem_digits (n + 1) n [] (by intro c hc2; cases hc2) c hc

/-- The header `format_result` puts in front of a DataFrame body. -/
def dfHeader (n mr : Nat) : String :=
  if n > mr then
    "DataFrame with " ++ toString n ++ " rows (showing first " ++ toString mr ++ "):\n"
  else
    "DataFrame with " ++ toString n ++ " rows:\n"

/-- The header `format_result` puts in front of a Series body. -/
def srHeader (n mr : Nat) : String :=
  if n > mr then
    "Series with " ++ toString n ++ " items (showing first " ++ toString mr ++ "):\n"
  else
    "Series with " ++ toString n ++ " items:\n"

/-- The rows a formatted DataFrame body renders. -/
def dfShownRows (df : DataFrame) (mr : Nat) : List (List String) :=
  if df.rows.length > mr then df.rows.take mr else df.rows

/-- The items a formatted Series body renders. -/
def srShownItems (sr : Series) (mr : Nat) : List (String × String) :=
  if sr.items.length > mr then sr.items.take mr else sr.items

lemma frame_truncation (df : DataFrame) (mr : Nat) :
    format_result (Value.frame df) mr
        = .ok (dfHeader df.rows.length mr ++ dfToString ⟨df.cols, dfShownRows df mr⟩)
      ∧ (dfShownRows df mr).length = min df.rows.length mr
      ∧ containsSub (toString df.rows.length).data (dfHeader df.rows.length mr).data = true
      ∧ containsSub "(showing first ".data (dfHeader df.rows.length mr).data
          = decide (df.rows.length > mr) := by
  by_cases h : df.rows.length > mr
  · refine ⟨?_, ?_, ?_, ?_⟩
    · simp only [format_result, dfHeader, dfShownRows, if_pos h]
      rfl
    · simp only [dfShownRows, if_pos h, List.length_take]
      omega
    · simp only [dfHeader, if_pos h]
      rw [containsSub_true_iff]
      refine ⟨"DataFrame with ".data,
        (" rows (showing first " ++ toString mr ++ "):\n").data, ?_⟩
      simp [List.append_assoc]
    · rw [decide_eq_true h]
      simp only [dfHeader, if_pos h]
      rw [containsSub_true_iff]
      have hsplit : (" rows (showing first " : String) = " rows " ++ "(showing first " := rfl
      rw [hsplit]
      refine ⟨("DataFrame with " ++ toString df.rows.length ++ " rows ").data,
        (toString mr ++ "):\n").data, ?_⟩
      simp [List.append_assoc]
  · refine ⟨?_, ?_, ?_, ?_⟩
    · simp only [format_result, dfHeader, dfShownRows, if_neg h]
    · simp only [dfShownRows, if_neg h]
      rw [Nat.min_eq_left (Nat.le_of_not_lt h)]
    · simp only [dfHeader, if_neg h]
      rw [containsSub_true_iff]
      exact ⟨"DataFrame with ".data, " rows:\n".data, by simp [List.append_assoc]⟩
    · rw [decide_eq_false h]
      cases hc : containsSub "(showing first ".data (dfHeader df.rows.length mr).data with
      | false => rfl
      | true =>
        exfalso
        have hp : '(' ∈ (dfHeader df.rows.length mr).data :=
          mem_of_containsSub hc (by decide)
        simp only [dfHeader, if_neg h, String.data_append] at hp
        rcases List.mem_append.mp hp with hp | hp
        · rcases List.mem_append.mp hp with hp | hp
          · exact absurd hp (by decide)
          · exact absurd (repr_data_digits df.rows.length '(' hp) (by decide)
        · exact absurd hp (by decide)

lemma series_truncation (sr : Series) (mr : Nat) :
    format_result (Value.series sr) mr
        = .ok (srHeader sr.items.length mr ++ seriesToString ⟨srShownItems sr mr⟩)
      ∧ (srShownItems sr mr).length = min sr.items.length mr
      ∧ containsSub (toString sr.items.length).data (srHeader sr.items.length mr).data = true
      ∧ containsSub "(showing first ".data (srHeader sr.items.length mr).data
          = decide (sr.items.length > mr) := by
  by_cases h : sr.items.length > mr
  · refine ⟨?_, ?_, ?_, ?_⟩
    · simp only [format_result, srHeader, srShownItems, if_pos h]
      rfl
    · simp only [srShownItems, if_pos h, List.length_take]
      omega
    · simp only [srHeader, if_pos h]
      rw [containsSub_true_iff]
      refine ⟨"Series with ".data,
        (" items (showing first " ++ toString mr ++ "):\n").data, ?_⟩
      simp [List.append_assoc]
    · rw [decide_eq_true h]
      simp only [srHeader, if_pos h]
      rw [containsSub_true_iff]
      have hsplit : (" items (showing first " : String) = " items " ++ "(showing first " := rfl
      rw [hsplit]
      refine ⟨("Series with " ++ toString sr.items.length ++ " items ").data,
        (toString mr ++ "):\n").data, ?_⟩
      simp [List.append_assoc]
  · refine ⟨?_, ?_, ?_, ?_⟩
    · simp only [format_result, srHeader, srShownItems, if_neg h]
    · simp only [srShownItems, if_neg h]
      rw [Nat.min_eq_left (Nat.le_of_not_lt h)]
    · simp only [srHeader, if_neg h]
      rw [containsSub_true_iff]
      exact ⟨"Series with ".data, " items:\n".data, by simp [List.append_assoc]⟩
    · rw [decide_eq_false h]
      cases hc : containsSub "(showing first ".data (srHeader sr.items.length mr).data with
      | false => rfl
      | true =>
        exfalso
        have hp : '(' ∈ (srHeader sr.items.length mr).data :=
          mem_of_containsSub hc (by decide)
        simp only [srHeader, if_neg h, String.data_append] at hp
        rcases List.mem_append.mp hp with hp | hp
        · rcases List.mem_append.mp hp with hp | hp
          · exact absurd hp (by decide)
          · exact absurd (repr_data_digits sr.items.length '(' hp) (by decide)
        · exact absurd hp (by decide)

/-- C5: the truncation law.  For a DataFrame (resp. Series) of size `n`
formatted with `max_rows`: the output is a header followed by a body; the
header states `n`; the body renders exactly `min n max_rows` entries (all
`n` when `n ≤ max_rows`, the first `max_rows` otherwise); and the
truncation note `(showing first ...` appears in the header precisely when
`n > max_rows`. -/
theorem truncation_law (df : DataFrame) (sr : Series) (mr : Nat) :
    (format_result (Value.frame df) mr
        = .ok (dfHeader df.rows.length mr ++ dfToString ⟨df.cols, dfShownRows df mr⟩)
      ∧ (dfShownRows df mr).length = min df.rows.length mr
      ∧ containsSub (toString df.rows.length).data (dfHeader df.rows.length mr).data = true
      ∧ containsSub "(showing first ".data (dfHeader df.rows.length mr).data
          = decide (df.rows.length > mr))
    ∧ (format_result (Value.series sr) mr
        = .ok (srHeader sr.items.length mr ++ seriesToString ⟨srShownItems sr mr⟩)
      ∧ (srShownItems sr mr).length = min sr.items.length mr
      ∧ containsSub (toString sr.items.length).data (srHeader sr.items.length mr).data = true
      ∧ containsSub "(showing first ".data (srHeader sr.items.length mr).data
          = decide (sr.items.length > mr)) :=
  ⟨frame_truncation df mr, series_truncation sr mr⟩

/-! ## Claim C8 -/

/-- C8: with the retry budget at its default of 2, when the generated code
and both regenerated fixes all fail to execute, `ask` terminates in the
exhausted-retries failure state: the result is unsuccessful, carries the
last error (which is non-empty), and exactly 3 execution attempts are made
- no further attempts occur. -/
theorem retries_exhausted (dfs : List (String × DataFrame)) (oracle : Oracle)
    (question : String) (c0 c1 c2 : PyCode) (e0 e1 e2 : String)
    (hgen : oracle.genCode = .ok c0)
    (hx0 : execute_code c0 dfs = (Value.none, some e0))
    (hf0 : oracle.fixCode c0 e0 = .ok c1)
    (hx1 : execute_code c1 dfs = (Value.none, some e1))
    (hf1 : oracle.fixCode c1 e1 = .ok c2)
    (hx2 : execute_code c2 dfs = (Value.none, some e2)) :
    ∃ res : PipelineResult,
      ask dfs oracle 2 question = .ok (res, 3) ∧
        res.success = false ∧ res.error = some e2 ∧ e2 ≠ "" := by
  have hne : e2 ≠ "" := by
    rcases execute_code_error_shape c2 dfs with hsh | ⟨_, e, he, hne⟩
    · rw [hx2] at hsh
      cases hsh
    · rw [hx2] at he
      cases he
      exact hne
  have hloop : execLoop dfs oracle.fixCode 2 c0 = (c2, Value.none, some e2, 3) := by
    rw [execLoop, hx0]
    simp only [hf0]
    rw [execLoop, hx1]
    simp only [hf1]
    rw [execLoop, hx2]
  simp only [ask, hgen, hloop]
  exact ⟨_, rfl, rfl, rfl, hne⟩

/-- A candidate blob every validation rejects (it contains `os.`). -/
def badCode : PyCode := ⟨"os.", Option.none⟩

/-- An oracle whose generator and fixer always emit the rejected blob. -/
def oracleAllFail : Oracle :=
  ⟨.ok badCode, fun _ _ => .ok badCode,
    fun _ => .ok "sorry", fun _ => .ok "unused"⟩

/-- C8 witness: three failing attempts at the concrete always-rejected
code exhaust the default budget. -/
theorem retries_exhausted_witness :
    ∃ res : PipelineResult,
      ask [] oracleAllFail 2 "q" = .ok (res, 3) ∧
        res.success = false ∧
        res.error = some "Unsafe pattern detected: os." ∧
        "Unsafe pattern detected: os." ≠ "" :=
  retries_exhausted [] oracleAllFail "q" badCode badCode badCode
    "Unsafe pattern detected: os." "Unsafe pattern detected: os."
    "Unsafe pattern detected: os." rfl rfl rfl rfl rfl rfl

/-! ## Claim C9 -/

/-- C9: when execution succeeds and the answer-synthesis call fails, `ask`
still succeeds, answering with the formatted result text verbatim behind
the fixed neutral lead-in instead of propagating the synthesis failure. -/
theorem synth_failure_falls_back (dfs : List (String × DataFrame)) (oracle : Oracle)
    (mr : Nat) (question : String) (c0 : PyCode) (r : Value) (s m : String)
    (hgen : oracle.genCode = .ok c0)
    (hx : execute_code c0 dfs = (r, Option.none))
    (hfmt : format_result r 20 = .ok s)
    (hsyn : oracle.synthAnswer s = .error m) :
    ∃ res : PipelineResult,
      ask dfs oracle mr question = .ok (res, 1) ∧
        res.answer = "Here are the results:\n\n" ++ s ∧
        res.success = true ∧ res.formatted_result = some s := by
  have hloop : execLoop dfs oracle.fixCode mr c0 = (c0, r, Option.none, 1) := by
    rw [execLoop, hx]
  simp only [ask, hgen, hloop, hfmt, hsyn]
  exact ⟨_, rfl, rfl, rfl, rfl⟩

/-- A code blob whose bare-expression tail evaluates to the integer 1. -/
def goodCode : PyCode := ⟨"1", some [Stmt.exprStmt (Expr.const (Value.int 1))]⟩

/-- An oracle that generates `goodCode` but whose synthesizer is down. -/
def oracleSynthDown : Oracle :=
  ⟨.ok goodCode, fun _ _ => .ok goodCode,
    fun _ => .ok "sorry", fun _ => .error "api down"⟩

/-- C9 witness: execution succeeds, synthesis raises, and the answer is the
neutral lead-in plus the formatted result. -/
theorem synth_failure_falls_back_witness :
    ∃ res : PipelineResult,
      ask [] oracleSynthDown 2 "q" = .ok (res, 1) ∧
        res.answer = "Here are the results:\n\n" ++ "1" ∧
        res.success = true ∧ res.formatted_result = some "1" :=
  synth_failure_falls_back [] oracleSynthDown 2 "q" goodCode (Value.int 1) "1"
    "api down" rfl rfl rfl rfl
